import Mathlib

/-!
Verification of the parse-orchestration and diagnostics core of `tptpy`
(`src/tptpy/__main__.py`): the TTP result normalizer (`parse_ttp`, lines
63-69), the diagnostic formatters (`_format_textfsm_error`,
`_format_ttp_error`, `format_parse_error`), the snippet generator
(`generate_snippet` with `SNIPPET_TEXTFSM` / `SNIPPET_TTP`), and the
orchestrator `_run_parse` (lines 1014-1066).

Python values that flow through the normalizer are embedded as the
inductive `PyVal`; exceptions are embedded as their message string
(`str(exc)` is all the formatters ever use); the backend extraction
function is an explicit argument of the orchestrator returning
`Except` instead of raising.
-/

/-- Model of the dynamically-typed values the TTP backend's raw result can
hold: strings, dicts (record values modelled as strings, which is all the
claims exercise), and nested lists. -/
inductive PyVal where
  | str : String → PyVal
  | dict : List (String × String) → PyVal
  | list : List PyVal → PyVal

/-- Normalization loop of `parse_ttp` (lines 65-69): repeatedly replace the
value by its first element while it is a nonempty list whose first element
is not a dict; when the first element is a dict, return that list; if the
value stops being a nonempty list, return `[]`
(`results if isinstance(results, list) else []`, with the empty list and
non-list cases both yielding `[]`). -/
def ttpNormalize : PyVal → List PyVal
  | PyVal.list (PyVal.dict d :: xs) => PyVal.dict d :: xs
  | PyVal.list (x :: _xs) => ttpNormalize x
  | _ => []

/-- Length of the chain of first elements descended by the normalization
loop: the number of `results = results[0]` steps available from `v`. -/
def head_depth : PyVal → Nat
  | PyVal.list (x :: _) => head_depth x + 1
  | _ => 0

/-- Fuel-indexed version of the `parse_ttp` normalization loop: each loop
iteration (`results = results[0]`) consumes one unit of fuel, and `none`
means the fuel ran out before the loop exited. -/
def ttpNormalizeFuel : Nat → PyVal → Option (List PyVal)
  | _, PyVal.list (PyVal.dict d :: xs) => some (PyVal.dict d :: xs)
  | n + 1, PyVal.list (x :: _) => ttpNormalizeFuel n x
  | 0, PyVal.list (_ :: _) => none
  | _, _ => some []

/-- Escaping performed by `generate_snippet` (lines 200-201):
`text.replace('\x22\x22\x22', r'\x5c\x22\x5c\x22\x5c\x22')`, i.e. every
non-overlapping occurrence of the triple-quote delimiter gains a backslash
before each quote.  Scans left to right exactly like `str.replace`. -/
def escapeTriple : List Char → List Char
  | [] => []
  | [c] => [c]
  | [c, d] => [c, d]
  | c :: d :: e :: rest =>
    if c = '"' ∧ d = '"' ∧ e = '"' then
      '\\' :: '"' :: '\\' :: '"' :: '\\' :: '"' :: escapeTriple rest
    else
      c :: escapeTriple (d :: e :: rest)

/-- String-level wrapper of `escapeTriple`, the exact transformation
`generate_snippet` applies to both embedded texts. -/
def escapeTripleStr (s : String) : String :=
  String.mk (escapeTriple s.data)

/-- Decoded value of the two-character escape sequence backslash-`d` in a
Python string literal: the recognised escapes `\x5c \x27 \x22 n t r`
denote the escaped character, any other sequence is kept verbatim as the
backslash followed by `d`, as Python does (escape forms the claims never
exercise, such as `\x5cx..`, are also kept verbatim here). -/
def escValue (d : Char) : List Char :=
  if d = '\\' then ['\\']
  else if d = '\x27' then ['\x27']
  else if d = '"' then ['"']
  else if d = 'n' then ['\n']
  else if d = 't' then ['\t']
  else if d = 'r' then ['\r']
  else ['\\', d]

/-- Reading of a triple-quoted string literal by the target language (the
Python interpreter that runs the generated snippet), starting just after
the opening delimiter: the literal terminates at the first three
consecutive quote characters not consumed by a backslash escape; a
backslash always consumes the following character and contributes its
escape value.  Returns the decoded literal value together with the
characters following the closing delimiter, or `none` when the literal
never terminates (the generated script would be a syntax error). -/
def read_triple_quoted : List Char → Option (List Char × List Char)
  | '"' :: '"' :: '"' :: rest => some ([], rest)
  | '\\' :: d :: rest =>
    (read_triple_quoted rest).map (fun p => (escValue d ++ p.1, p.2))
  | c :: rest =>
    (read_triple_quoted rest).map (fun p => (c :: p.1, p.2))
  | [] => none

/-- Length of the trailing run of quote characters of a text, computed
from the front: a character extends the run only when the entire
remainder already is the run.  After escaping, the embedded literal ends
in an unescaped quote — and collides with the closing delimiter — exactly
when this length is not a multiple of three. -/
def trailing_quotes : List Char → Nat
  | [] => 0
  | c :: rest =>
    if c = '"' ∧ trailing_quotes rest = rest.length then trailing_quotes rest + 1
    else trailing_quotes rest

/-- Text of `SNIPPET_TEXTFSM` up to and including `TEMPLATE = \x22\x22\x22`
(the `.format` call substitutes the escaped template text immediately
after this prefix). -/
def SNIPPET_TEXTFSM_PRE : String :=
  "#!/usr/bin/env python3\n\"\"\"Auto-generated TextFSM parse snippet.\"\"\"\nimport io, json, textfsm\n\nTEMPLATE = \"\"\""

/-- Text of `SNIPPET_TEXTFSM` between the two embedded literals. -/
def SNIPPET_TEXTFSM_MID : String :=
  "\"\"\"\n\nSOURCE = \"\"\""

/-- Text of `SNIPPET_TEXTFSM` after the embedded source literal. -/
def SNIPPET_TEXTFSM_POST : String :=
  "\"\"\"\n\nparser = textfsm.TextFSM(io.StringIO(TEMPLATE))\nraw = parser.ParseText(SOURCE)\nheaders = parser.header\nresults = [dict(zip(headers, row)) for row in raw]\nprint(json.dumps(results, indent=2))\n"

/-- Text of `SNIPPET_TTP` up to and including `TEMPLATE = \x22\x22\x22`. -/
def SNIPPET_TTP_PRE : String :=
  "#!/usr/bin/env python3\n\"\"\"Auto-generated TTP parse snippet.\"\"\"\nimport json\nfrom ttp import ttp\n\nTEMPLATE = \"\"\""

/-- Text of `SNIPPET_TTP` between the two embedded literals. -/
def SNIPPET_TTP_MID : String :=
  "\"\"\"\n\nSOURCE = \"\"\""

/-- Text of `SNIPPET_TTP` after the embedded source literal. -/
def SNIPPET_TTP_POST : String :=
  "\"\"\"\n\nparser = ttp(data=SOURCE, template=TEMPLATE)\nparser.parse()\nresults = parser.result(format=\"raw\")\nif results and isinstance(results[0], list):\n    results = results[0]\nprint(json.dumps(results, indent=2))\n"

/-- Model of `generate_snippet` (lines 196-202): choose `SNIPPET_TEXTFSM`
when `parser_type == \x22textfsm\x22` and `SNIPPET_TTP` for every other
identifier, then fill the two placeholders with the escaped template and
source texts (`str.format` on a constant template with two fields is
exactly this concatenation; the substituted values are not re-scanned). -/
def generate_snippet (parser_type source template : String) : String :=
  if parser_type = "textfsm" then
    SNIPPET_TEXTFSM_PRE ++ escapeTripleStr template ++ SNIPPET_TEXTFSM_MID
      ++ escapeTripleStr source ++ SNIPPET_TEXTFSM_POST
  else
    SNIPPET_TTP_PRE ++ escapeTripleStr template ++ SNIPPET_TTP_MID
      ++ escapeTripleStr source ++ SNIPPET_TTP_POST

/-- Accumulator pass behind `py_splitlines`; `acc` holds the current line
reversed. -/
def splitlines_aux : List Char → List Char → List (List Char)
  | [], acc => if acc.isEmpty then [] else [acc.reverse]
  | '\n' :: rest, acc => acc.reverse :: splitlines_aux rest []
  | c :: rest, acc => splitlines_aux rest (c :: acc)

/-- Model of Python `str.splitlines()` restricted to `\n` boundaries (the
only boundary the claims exercise): no entry for a trailing newline and
the empty string yields the empty list. -/
def py_splitlines (s : String) : List String :=
  (splitlines_aux s.data []).map String.mk

/-- Model of `'\n'.join(parts)` used by both formatters to assemble the
Report. -/
def joinLines : List String → String
  | [] => ""
  | [l] => l
  | l :: ls => l ++ "\n" ++ joinLines ls

/-- Model of Python substring membership `needle in hay`. -/
def py_in (needle hay : String) : Bool :=
  decide (needle.data <:+: hay.data)

/-- Model of Python `str.lower()` (ASCII case folding, which is all the
classifier needles exercise). -/
def py_lower (s : String) : String :=
  String.mk (s.data.map Char.toLower)

/-- Rendering of the width-3 right-aligned line number field `i:3d`. -/
def pad_num3 (n : Nat) : String :=
  let s := toString n
  if s.length < 3 then String.mk (List.replicate (3 - s.length) ' ') ++ s else s

/-- Numeric value of a nonempty digit string, as Python `int` reads it. -/
def digits_to_nat (ds : List Char) : Nat :=
  ds.foldl (fun a c => 10 * a + (c.toNat - 48)) 0

/-- Attempt to match the regex `[Ll]ine:?\s*(\d+)` at the start of the
character list: `L` or `l`, then `ine`, an optional colon, any whitespace,
then one or more digits taken greedily (no other backtracking can succeed
for this pattern). -/
def match_line_at : List Char → Option Nat
  | c :: 'i' :: 'n' :: 'e' :: rest =>
    if c = 'L' ∨ c = 'l' then
      let rest2 := match rest with
        | ':' :: r => r
        | r => r
      let rest3 := rest2.dropWhile Char.isWhitespace
      let ds := rest3.takeWhile Char.isDigit
      if ds.isEmpty then none else some (digits_to_nat ds)
    else none
  | _ => none

/-- Model of `re.search(r\x22[Ll]ine:?\s*(\d+)\x22, msg)` followed by
`int(...)` on the captured digits (lines 87-89): the leftmost position
where `match_line_at` succeeds. -/
def search_line : List Char → Option Nat
  | [] => none
  | c :: rest =>
    match match_line_at (c :: rest) with
    | some n => some n
    | none => search_line rest

/-- Excerpt rows built by the loop at lines 91-95: for each 0-based index
`i` in `range(max(0, line_no - 3), min(len(lines), line_no + 2))` a row
holding the displayed 1-based number `i + 1`, whether the marker `>>>` is
attached (`i == line_no - 1` over Python ints), and the line text. -/
def excerpt_rows (lines : List String) (lineNo : Nat) : List (Nat × Bool × String) :=
  (List.range' (lineNo - 3) (min lines.length (lineNo + 2) - (lineNo - 3))).map
    (fun i => (i + 1, decide ((i : Int) = (lineNo : Int) - 1), lines.getD i ""))

/-- Index-checked traversal behind `excerpt_rows_checked`: every access
`lines[i]` is performed through the partial lookup `lines[i]?`, and any
out-of-bounds access (Python `IndexError`) aborts with `none`. -/
def rows_checked (lines : List String) (mark : Nat → Bool) : List Nat → Option (List (Nat × Bool × String))
  | [] => some []
  | i :: is =>
    match lines[i]? with
    | none => none
    | some l =>
      match rows_checked lines mark is with
      | none => none
      | some rows => some ((i + 1, mark i, l) :: rows)

/-- Partiality-faithful version of `excerpt_rows`: the subscript
`lines[i]` of line 95 is modelled as a fallible lookup, so this returns
`none` exactly when the Python loop would raise `IndexError`. -/
def excerpt_rows_checked (lines : List String) (lineNo : Nat) : Option (List (Nat × Bool × String)) :=
  rows_checked lines (fun i => decide ((i : Int) = (lineNo : Int) - 1))
    (List.range' (lineNo - 3) (min lines.length (lineNo + 2) - (lineNo - 3)))

/-- Rendering of one excerpt row, `f\x22(marker) (i + 1:3d) | (line)\x22`
of line 95. -/
def render_row (r : Nat × Bool × String) : String :=
  (if r.2.1 then " >>>" else "    ") ++ " " ++ pad_num3 r.1 ++ " | " ++ r.2.2

/-- The `=` * 50 separator line under each Report header. -/
def eq_line : String :=
  String.mk (List.replicate 50 '=')

/-- Heuristic Issue/Hint classifier chain of `_format_textfsm_error`
(lines 98-114), evaluated in source order with the verbatim `Detail`
fallback. -/
def textfsm_issue_lines (msg : String) : List String :=
  if py_in "Invalid state name" msg then
    ["  Issue: Invalid state name in Value definition.",
     "  Hint:  Blank lines are not allowed between Value",
     "         declarations. Remove any empty lines before",
     "         the \x27Start\x27 state."]
  else if py_in "No \x27Start\x27 state" msg || py_in "no Start state" (py_lower msg) then
    ["  Issue: Missing \x27Start\x27 state.",
     "  Hint:  Every TextFSM template needs a \x27Start\x27 state",
     "         after the Value declarations."]
  else if py_in "duplicate" (py_lower msg) then
    ["  Issue: Duplicate value or state name.",
     "  Hint:  Each Value name must be unique."]
  else if py_in "rule" (py_lower msg) && py_in "syntax" (py_lower msg) then
    ["  Issue: Rule syntax error.",
     "  Hint:  Check regex patterns and -> actions."]
  else
    ["  Detail: " ++ msg]

/-- Assembly of the TextFSM Report from its optional excerpt block and the
classifier lines: `\x22\n\x22.join(parts)` over header, separator, blank
line, excerpt block, issue lines. -/
def textfsm_assemble (msg : String) (block : List String) : String :=
  joinLines ("TextFSM Error" :: eq_line :: "" :: (block ++ textfsm_issue_lines msg))

/-- The `Problem at line N:` block of lines 90-96, from already-built
excerpt rows. -/
def textfsm_block (n : Nat) (rows : List (Nat × Bool × String)) : List String :=
  ("  Problem at line " ++ toString n ++ ":") :: (rows.map render_row ++ [""])

/-- Excerpt rows the TextFSM Report shows for a given failure message and
template: the rows of the window around the extracted line number, or no
rows when no line number is found in the message. -/
def textfsm_report_rows (msg template : String) : List (Nat × Bool × String) :=
  match search_line msg.data with
  | some n => excerpt_rows (py_splitlines template) n
  | none => []

/-- Model of `_format_textfsm_error(exc, template)` (lines 81-116) on
`msg = str(exc)`. -/
def format_textfsm_error (msg template : String) : String :=
  match search_line msg.data with
  | some n => textfsm_assemble msg (textfsm_block n (excerpt_rows (py_splitlines template) n))
  | none => textfsm_assemble msg []

/-- Partiality-faithful version of `format_textfsm_error`, propagating a
hypothetical `IndexError` of the excerpt loop as `none`. -/
def format_textfsm_error_checked (msg template : String) : Option String :=
  match search_line msg.data with
  | some n =>
    (excerpt_rows_checked (py_splitlines template) n).map
      (fun rows => textfsm_assemble msg (textfsm_block n rows))
  | none => some (textfsm_assemble msg [])

/-- Issue classifier chain of `_format_ttp_error` (lines 125-130). -/
def ttp_issue_lines (msg : String) : List String :=
  if py_in "template" (py_lower msg) then
    ["  Issue: Template syntax problem."]
  else if py_in "variable" (py_lower msg) || py_in "match" (py_lower msg) then
    ["  Issue: Variable/match definition error."]
  else
    ["  Detail: " ++ msg]

/-- The bounded template preview of lines 133-137: the first ten template
lines numbered from 1, then a count of the remaining lines if any. -/
def ttp_preview_lines (lines : List String) : List String :=
  (List.enumFrom 1 (lines.take 10)).map
    (fun p => "    " ++ pad_num3 p.1 ++ " | " ++ p.2)
    ++ (if lines.length > 10 then
          ["    ... (" ++ toString (lines.length - 10) ++ " more lines)"]
        else [])

/-- Model of `_format_ttp_error(exc, template)` (lines 119-145) on
`msg = str(exc)`. -/
def format_ttp_error (msg template : String) : String :=
  joinLines ("TTP Error" :: eq_line :: ""
    :: (ttp_issue_lines msg
        ++ ["", "  Template preview:"]
        ++ ttp_preview_lines (py_splitlines template)
        ++ ["", "  Tips:",
            "  - Check that \x7b\x7b variable \x7d\x7d placeholders match source structure",
            "  - Use \x7b\x7b ignore \x7d\x7d to skip fields you don\x27t need",
            "  - Whitespace in the template must match the source text"]))

/-- Model of `format_parse_error(parser_name, exc, template)`
(lines 148-155). -/
def format_parse_error (parser_name msg template : String) : String :=
  if parser_name = "textfsm" then format_textfsm_error msg template
  else if parser_name = "ttp" then format_ttp_error msg template
  else "Parse Error: " ++ msg

/-- Model of the blank test `not text.strip()` guarding `_run_parse`
(lines 1019-1024): true exactly when every character of the text is
whitespace, i.e. when `str.strip()` yields the empty string. -/
def py_strip_empty (s : String) : Bool :=
  s.data.all Char.isWhitespace

/-- The three terminal outcomes of one `_run_parse` invocation: the
empty-input short circuit with its status message, a failure carrying the
Report and the placeholder snippet, or a success carrying the record
sequence and the generated snippet. -/
inductive ParseOutcome where
  | emptyInput : String → ParseOutcome
  | failure : String → String → ParseOutcome
  | success : List PyVal → String → ParseOutcome

/-- Result of one orchestrator run together with how many times the
backend extraction function was invoked during it. -/
structure RunResult where
  outcome : ParseOutcome
  backendCalls : Nat

/-- Model of `_run_parse` (lines 1014-1066).  The selected parser name is
`none` when the Select widget is blank; the backend extraction function
`extract` stands for `PARSERS[parser_name]` and returns `Except` instead
of raising, its error being `str(exc)`.  Each branch records the number of
`parse_fn` invocations it performs. -/
def run_parse (source template : String) (parser_name : Option String)
    (extract : String → String → Except String (List PyVal)) : RunResult :=
  if py_strip_empty source then
    ⟨ParseOutcome.emptyInput "⚠ Source text is empty.", 0⟩
  else if py_strip_empty template then
    ⟨ParseOutcome.emptyInput "⚠ Template is empty.", 0⟩
  else
    match parser_name with
    | none => ⟨ParseOutcome.emptyInput "⚠ Select a parser type.", 0⟩
    | some name =>
      match extract source template with
      | Except.error e =>
        ⟨ParseOutcome.failure (format_parse_error name e template)
          ("# Parse failed — fix template first\n# " ++ e), 1⟩
      | Except.ok results =>
        ⟨ParseOutcome.success results (generate_snippet name source template), 1⟩

/-- Raw TTP result shaped `[[(a 1 mapping)], [(a 2 mapping)]]`: a nested
sequence of single-element groups each holding one mapping. -/
def ttp_example_raw : PyVal :=
  PyVal.list [PyVal.list [PyVal.dict [("a", "1")]], PyVal.list [PyVal.dict [("a", "2")]]]

/-- C1 (counterexample): on the raw result `[[(a 1)], [(a 2)]]` the
normalization loop of `parse_ttp` descends into the first group and
returns `[(a 1)]` alone; it does not produce the flat two-record sequence
`[(a 1), (a 2)]` the claim states. -/
theorem ttp_normalize_nested_pair_counterexample :
    ttpNormalize ttp_example_raw = [PyVal.dict [("a", "1")]] ∧
      ttpNormalize ttp_example_raw ≠ [PyVal.dict [("a", "1")], PyVal.dict [("a", "2")]] := by
  have h : ttpNormalize ttp_example_raw = [PyVal.dict [("a", "1")]] := by
    simp [ttp_example_raw, ttpNormalize]
  refine ⟨h, ?_⟩
  rw [h]
  intro heq
  have hlen := congrArg List.length heq
  simp at hlen

/-- C1 (amended): feeding the raw result `[[(a 1)], [(a 2)]]` to the TTP
normalization loop yields the single-record sequence `[(a 1)]`: the loop
replaces the value by its first element until that element chain reaches a
list whose first element is a mapping, so sibling groups after the first
are dropped. -/
theorem ttp_normalize_nested_pair :
    ttpNormalize ttp_example_raw = [PyVal.dict [("a", "1")]] := by
  simp [ttp_example_raw, ttpNormalize]

/-- C9 (confirmed): the normalization loop of `parse_ttp` terminates on
every finite nested value: running the loop with `head_depth v` units of
fuel (one unit per `results = results[0]` iteration) never exhausts the
fuel and computes exactly the value of the total function `ttpNormalize`,
so the post-processing is a total function of the raw result. -/
theorem ttp_normalize_terminates (v : PyVal) :
    ttpNormalizeFuel (head_depth v) v = some (ttpNormalize v) := by
  induction v using ttpNormalize.induct with
  | case1 d xs => rw [ttpNormalize.eq_1, ttpNormalizeFuel.eq_1]
  | case2 x xs hnd ih =>
    rw [ttpNormalize.eq_2 x xs hnd, head_depth.eq_1]
    exact (ttpNormalizeFuel.eq_2 (head_depth x) x xs hnd).trans ih
  | case3 t h1 h2 =>
    rw [ttpNormalize.eq_3 t h1 h2, head_depth.eq_2 t h2,
      ttpNormalizeFuel.eq_4 0 t h1 (fun n x tail hn _ => Nat.succ_ne_zero n hn.symm)
        (fun head tail _ ht => h2 head tail ht)]

/-- Reading a literal character — one that is not a backslash and does not
open the closing delimiter — prepends it to the literal value and
continues with the remainder. -/
theorem read_triple_cons (c : Char) (l : List Char) (hc : c ≠ '\\')
    (hq : ¬(c = '"' ∧ l.take 2 = ['"', '"'])) :
    read_triple_quoted (c :: l)
      = (read_triple_quoted l).map (fun p => (c :: p.1, p.2)) := by
  match l with
  | [] => simp [read_triple_quoted, hc]
  | [d] => simp [read_triple_quoted, hc]
  | d :: e :: rest =>
    rw [read_triple_quoted.eq_def]
    split
    · rename_i heq
      injection heq with h1 h2
      injection h2 with h2a h2b
      injection h2b with h2c h2d
      exact absurd ⟨h1, by rw [h2a, h2c]; simp⟩ hq
    · rename_i heq
      injection heq with h1 h2
      exact absurd h1 hc
    · rename_i heq
      injection heq with h1 h2
      rw [h1, h2]
    · rename_i heq
      simp at heq

/-- Reading an escaped quote contributes a quote character to the literal
value without counting towards the closing delimiter. -/
theorem read_triple_escaped_quote (l : List Char) :
    read_triple_quoted ('\\' :: '"' :: l)
      = (read_triple_quoted l).map (fun p => ('"' :: p.1, p.2)) := by
  rw [read_triple_quoted.eq_def]
  split
  · rename_i heq
    injection heq with h1 h2
    simp at h1
  · rename_i heq
    injection heq with h1 h2
    injection h2 with h2a h2b
    rw [← h2a, ← h2b]
    simp [escValue]
  · rename_i h1 h2 heq
    injection heq with ha hb
    exact (h2 '"' l ha.symm hb.symm).elim
  · rename_i heq
    simp at heq

/-- The escaping leaves a character in place whenever it does not open a
triple-quote occurrence. -/
theorem escapeTriple_cons (c : Char) (l : List Char)
    (h : ¬(c = '"' ∧ l.take 2 = ['"', '"'])) :
    escapeTriple (c :: l) = c :: escapeTriple l := by
  match l with
  | [] => simp [escapeTriple]
  | [d] => simp [escapeTriple]
  | d :: e :: rest =>
    have h3 : ¬(c = '"' ∧ d = '"' ∧ e = '"') := by
      intro hh
      obtain ⟨ha, hb, hcc⟩ := hh
      exact h ⟨ha, by rw [hb, hcc]; simp⟩
    rw [escapeTriple, if_neg h3]

/-- The trailing quote run never exceeds the text's length. -/
theorem trailing_quotes_le (l : List Char) : trailing_quotes l ≤ l.length := by
  induction l with
  | nil => simp [trailing_quotes]
  | cons c rest ih =>
    simp only [trailing_quotes, List.length_cons]
    split <;> omega

/-- A text whose trailing quote run covers all of it is a quote run: its
head is a quote and the remainder again is all run. -/
theorem trailing_full_cons (c : Char) (l : List Char)
    (h : trailing_quotes (c :: l) = (c :: l).length) :
    c = '"' ∧ trailing_quotes l = l.length := by
  have hle := trailing_quotes_le l
  simp only [trailing_quotes, List.length_cons] at h
  split at h
  · rename_i hc
    exact hc
  · omega

/-- Prepending one full triple-quote occurrence does not change the
trailing quote run modulo three. -/
theorem trailing_triple (rest : List Char) :
    trailing_quotes ('"' :: '"' :: '"' :: rest) % 3 = trailing_quotes rest % 3 := by
  have hle := trailing_quotes_le rest
  simp only [trailing_quotes, List.length_cons]
  split_ifs <;> simp_all <;> omega

/-- Dropping the head character in front of a non-triple-quote position
keeps the trailing quote run. -/
theorem trailing_cons_of_ne (c d e : Char) (rest : List Char)
    (h3 : ¬(c = '"' ∧ d = '"' ∧ e = '"')) :
    trailing_quotes (c :: d :: e :: rest) = trailing_quotes (d :: e :: rest) := by
  by_cases hfull : trailing_quotes (d :: e :: rest) = (d :: e :: rest).length
  · have h1 := trailing_full_cons d (e :: rest) hfull
    have h2 := trailing_full_cons e rest h1.2
    have hcq : ¬c = '"' := fun hcc => h3 ⟨hcc, h1.1, h2.1⟩
    rw [trailing_quotes]
    rw [if_neg (fun hh => hcq hh.1)]
  · rw [trailing_quotes]
    rw [if_neg (fun hh => hfull hh.2)]

/-- Round trip of the embedded literal at the character-list level,
closing delimiter included: for a text with no backslash whose trailing
quote run is a multiple of three, the target language's literal reading of
the escaped text followed by the closing delimiter recovers exactly the
original text and stops exactly at the delimiter. -/
theorem snippet_embed_roundtrip_list (s : List Char) (tail : List Char)
    (hb : '\\' ∉ s) (hq : trailing_quotes s % 3 = 0) :
    read_triple_quoted (escapeTriple s ++ '"' :: '"' :: '"' :: tail)
      = some (s, tail) := by
  induction s using escapeTriple.induct with
  | case1 => simp [escapeTriple, read_triple_quoted]
  | case2 c =>
    simp only [List.mem_singleton] at hb
    have hcq : c ≠ '"' := by
      intro hcc
      rw [trailing_quotes] at hq
      simp [hcc, trailing_quotes] at hq
    rw [show escapeTriple [c] = [c] from by simp [escapeTriple]]
    rw [List.cons_append, List.nil_append]
    rw [read_triple_cons c _ (fun hcc => hb hcc.symm) (fun hh => hcq hh.1)]
    rw [read_triple_quoted]
    rfl
  | case3 c d =>
    simp only [List.mem_cons, not_or] at hb
    have hdq : d ≠ '"' := by
      intro hdc
      subst hdc
      rw [trailing_quotes, trailing_quotes] at hq
      simp [trailing_quotes] at hq
      split_ifs at hq
    rw [show escapeTriple [c, d] = [c, d] from by simp [escapeTriple]]
    rw [List.cons_append, List.cons_append, List.nil_append]
    rw [read_triple_cons c _ (fun hcc => hb.1 hcc.symm)
      (fun hh => hdq (by have h2 := hh.2; simp at h2; exact h2))]
    rw [read_triple_cons d _ (fun hdc => hb.2.1 hdc.symm) (fun hh => hdq hh.1)]
    rw [read_triple_quoted]
    rfl
  | case4 c d e rest h3 ih =>
    obtain ⟨hc, hd, he⟩ := h3
    subst hc; subst hd; subst he
    simp only [List.mem_cons, not_or] at hb
    have hq2 : trailing_quotes rest % 3 = 0 := by
      rw [← trailing_triple rest]; exact hq
    rw [escapeTriple, if_pos ⟨rfl, rfl, rfl⟩]
    simp only [List.cons_append]
    rw [read_triple_escaped_quote, read_triple_escaped_quote, read_triple_escaped_quote]
    rw [ih hb.2.2.2 hq2]
    rfl
  | case5 c d e rest h3 ih =>
    simp only [List.mem_cons, not_or] at hb
    have hb2 : '\\' ∉ d :: e :: rest := by
      simp only [List.mem_cons, not_or]
      exact ⟨hb.2.1, hb.2.2.1, hb.2.2.2⟩
    have hq2 : trailing_quotes (d :: e :: rest) % 3 = 0 := by
      rw [← trailing_cons_of_ne c d e rest h3]; exact hq
    rw [escapeTriple_cons c (d :: e :: rest)
      (fun hh => h3 ⟨hh.1, by simpa using hh.2⟩)]
    rw [List.cons_append]
    rw [read_triple_cons c _ (fun hcc => hb.1 hcc.symm) ?hside]
    · rw [ih hb2 hq2]
      rfl
    case hside =>
      intro hpair
      obtain ⟨hcq, htake⟩ := hpair
      by_cases hdq : d = '"'
      · subst hcq
        subst hdq
        have heq2 : e ≠ '"' := fun hee => h3 ⟨rfl, rfl, hee⟩
        rw [escapeTriple_cons '"' (e :: rest) (fun hh => heq2 (by
              have h2 := hh.2
              simp at h2
              exact h2.1))] at htake
        rw [escapeTriple_cons e rest (fun hh => heq2 hh.1)] at htake
        simp at htake
        exact heq2 htake
      · rw [escapeTriple_cons d (e :: rest) (fun hh => hdq hh.1)] at htake
        simp at htake
        exact hdq htake.1

/-- C5 (counterexample): two texts on which the embedded literal fails to
reproduce the input.  The text `a` followed by two quotes is embedded
unchanged, its trailing quotes merge with the closing delimiter, and the
target language terminates the literal early: it silently reads back just
`a` with two stray quote characters left over.  The two-character text
backslash-`n` is embedded unescaped and reads back as a newline
character. -/
theorem snippet_embed_counterexample :
    read_triple_quoted (escapeTriple ("a\"\"" : String).data ++ ['"', '"', '"'])
        = some (("a" : String).data, ['"', '"'])
      ∧ read_triple_quoted (escapeTriple ("a\"\"" : String).data ++ ['"', '"', '"'])
        ≠ some (("a\"\"" : String).data, [])
      ∧ read_triple_quoted (escapeTriple ("\\n" : String).data ++ ['"', '"', '"'])
        ≠ some (("\\n" : String).data, []) := by
  refine ⟨?_, ?_, ?_⟩ <;> decide

/-- C5 (amended): for every source or template text that contains no
backslash and whose trailing run of quote characters has a length that is
a multiple of three (in particular any text not ending in a quote; texts
containing the triple-quote delimiter elsewhere are covered), the snippet
escaping of the delimiter is inverted exactly by the target language's
literal reading — literal termination at the first three unescaped quotes
included — so the embedded string literal reproduces the original text
byte-for-byte and ends exactly at the snippet's closing delimiter.  Texts
with a backslash, or ending in a quote run of any other length, need not
round-trip: the generated script can mis-read or fail to parse them. -/
theorem snippet_embed_roundtrip (s : String) (rest : List Char)
    (hb : '\\' ∉ s.data) (hq : trailing_quotes s.data % 3 = 0) :
    read_triple_quoted ((escapeTripleStr s).data ++ '"' :: '"' :: '"' :: rest)
      = some (s.data, rest) := by
  unfold escapeTripleStr
  exact snippet_embed_roundtrip_list s.data rest hb hq

/-- Witness for `snippet_embed_roundtrip` at a text containing the
triple-quote delimiter. -/
theorem snippet_embed_roundtrip_witness :
    ('\\' ∉ ("a\"\"\"b" : String).data
        ∧ trailing_quotes ("a\"\"\"b" : String).data % 3 = 0)
      ∧ read_triple_quoted ((escapeTripleStr "a\"\"\"b").data ++ '"' :: '"' :: '"' :: [])
        = some (("a\"\"\"b" : String).data, []) :=
  ⟨⟨by decide, by decide⟩, snippet_embed_roundtrip "a\"\"\"b" [] (by decide) (by decide)⟩

/-- C10 (confirmed): for every parser identifier other than `textfsm`,
including identifiers that are not registered at all, `generate_snippet`
fills and returns the TTP snippet template, exactly as it does for `ttp`;
it never fails on an unknown identifier. -/
theorem generate_snippet_default_ttp (parser_type source template : String)
    (h : parser_type ≠ "textfsm") :
    generate_snippet parser_type source template
      = generate_snippet "ttp" source template := by
  simp [generate_snippet, h]

/-- Witness for `generate_snippet_default_ttp` at an unregistered
identifier. -/
theorem generate_snippet_default_ttp_witness :
    ("regexp" : String) ≠ "textfsm" ∧
      generate_snippet "regexp" "SRC" "TPL" = generate_snippet "ttp" "SRC" "TPL" :=
  ⟨by decide, generate_snippet_default_ttp "regexp" "SRC" "TPL" (by decide)⟩

/-- C3 (confirmed): once the non-blank preconditions hold and a backend is
selected, the orchestrator yields a Failure (carrying a Report) exactly
when the backend extraction function raised, and a Success (carrying a
possibly empty record sequence) exactly when it did not; the outcomes are
mutually exclusive and exhaustive since `ParseOutcome` constructors are
disjoint. -/
theorem run_parse_failure_iff (source template name : String)
    (extract : String → String → Except String (List PyVal))
    (hs : py_strip_empty source = false) (ht : py_strip_empty template = false) :
    ((∃ r p, (run_parse source template (some name) extract).outcome
        = ParseOutcome.failure r p)
      ↔ ∃ e, extract source template = Except.error e)
    ∧ ((∃ rs sn, (run_parse source template (some name) extract).outcome
        = ParseOutcome.success rs sn)
      ↔ ∃ rs, extract source template = Except.ok rs) := by
  cases hx : extract source template with
  | error e => simp [run_parse, hs, ht, hx]
  | ok rs => simp [run_parse, hs, ht, hx]

/-- Witness for `run_parse_failure_iff` on a backend that raises. -/
theorem run_parse_failure_iff_witness :
    py_strip_empty "cfg" = false ∧ py_strip_empty "tpl" = false ∧
      (((∃ r p, (run_parse "cfg" "tpl" (some "textfsm")
            (fun _ _ => Except.error "boom")).outcome = ParseOutcome.failure r p)
        ↔ ∃ e, (fun (_ _ : String) => (Except.error "boom" : Except String (List PyVal))) "cfg" "tpl"
            = Except.error e)
      ∧ ((∃ rs sn, (run_parse "cfg" "tpl" (some "textfsm")
            (fun _ _ => Except.error "boom")).outcome = ParseOutcome.success rs sn)
        ↔ ∃ rs, (fun (_ _ : String) => (Except.error "boom" : Except String (List PyVal))) "cfg" "tpl"
            = Except.ok rs)) :=
  ⟨by decide, by decide,
    run_parse_failure_iff "cfg" "tpl" "textfsm" _ (by decide) (by decide)⟩

/-- C4 (confirmed): when the source is blank, or the template is blank, or
no backend identifier is selected, the orchestrator short-circuits to an
EmptyInput outcome, the backend extraction function is invoked zero times,
and no Report is generated (the outcome is EmptyInput, not Failure). -/
theorem run_parse_empty_input (source template : String) (parser_name : Option String)
    (extract : String → String → Except String (List PyVal))
    (h : py_strip_empty source = true ∨ py_strip_empty template = true ∨ parser_name = none) :
    (run_parse source template parser_name extract).backendCalls = 0
      ∧ ∃ m, (run_parse source template parser_name extract).outcome
          = ParseOutcome.emptyInput m := by
  rcases h with h | h | h
  · simp [run_parse, h]
  · by_cases hs : py_strip_empty source = true <;> simp [run_parse, h, hs]
  · subst h
    by_cases hs : py_strip_empty source = true <;>
      by_cases ht : py_strip_empty template = true <;>
        simp [run_parse, hs, ht]

/-- Witness for `run_parse_empty_input` on a blank source. -/
theorem run_parse_empty_input_witness :
    (py_strip_empty "" = true ∨ py_strip_empty "tpl" = true ∨ (some "ttp" : Option String) = none) ∧
      ((run_parse "" "tpl" (some "ttp") (fun _ _ => Except.ok [])).backendCalls = 0
        ∧ ∃ m, (run_parse "" "tpl" (some "ttp") (fun _ _ => Except.ok [])).outcome
            = ParseOutcome.emptyInput m) :=
  ⟨Or.inl (by decide), run_parse_empty_input "" "tpl" (some "ttp") _ (Or.inl (by decide))⟩

/-- C7 (confirmed): whenever the backend extraction raises, the
orchestrator still surfaces a snippet: the Failure outcome carries a
placeholder snippet that contains both the fixed text documenting that the
parse failed and the failure's detail text; building it is a total
concatenation, so snippet generation never fails as a side effect of the
failed parse. -/
theorem run_parse_failure_placeholder (source template name e : String)
    (extract : String → String → Except String (List PyVal))
    (hs : py_strip_empty source = false) (ht : py_strip_empty template = false)
    (hx : extract source template = Except.error e) :
    ∃ r p, (run_parse source template (some name) extract).outcome
        = ParseOutcome.failure r p
      ∧ ("Parse failed" : String).data <:+: p.data ∧ e.data <:+: p.data := by
  refine ⟨format_parse_error name e template,
    "# Parse failed — fix template first\n# " ++ e, ?_, ?_, ?_⟩
  · simp [run_parse, hs, ht, hx]
  · rw [String.data_append]
    exact (show ("Parse failed" : String).data
        <:+: ("# Parse failed — fix template first\n# " : String).data by decide).trans
      (List.prefix_append _ _).isInfix
  · rw [String.data_append]
    exact (List.suffix_append _ _).isInfix

/-- Witness for `run_parse_failure_placeholder` on a backend that
raises. -/
theorem run_parse_failure_placeholder_witness :
    py_strip_empty "cfg2" = false ∧ py_strip_empty "tpl2" = false ∧
      ((fun (_ _ : String) => (Except.error "bad template" : Except String (List PyVal))) "cfg2" "tpl2"
          = Except.error "bad template") ∧
      ∃ r p, (run_parse "cfg2" "tpl2" (some "ttp")
          (fun _ _ => Except.error "bad template")).outcome = ParseOutcome.failure r p
        ∧ ("Parse failed" : String).data <:+: p.data
        ∧ ("bad template" : String).data <:+: p.data :=
  ⟨by decide, by decide, rfl,
    run_parse_failure_placeholder "cfg2" "tpl2" "ttp" "bad template" _
      (by decide) (by decide) rfl⟩

/-- Every index access performed by `rows_checked` over in-bounds indices
succeeds, and the result agrees with the total `getD`-based traversal. -/
theorem rows_checked_eq (lines : List String) (mark : Nat → Bool) :
    ∀ idxs : List Nat, (∀ i ∈ idxs, i < lines.length) →
      rows_checked lines mark idxs
        = some (idxs.map (fun i => (i + 1, mark i, lines.getD i ""))) := by
  intro idxs
  induction idxs with
  | nil => intro _; simp [rows_checked]
  | cons i is ih =>
    intro h
    have hi : i < lines.length := h i (List.mem_cons_self i is)
    have hrest := ih (fun j hj => h j (List.mem_cons_of_mem i hj))
    simp [rows_checked, List.getElem?_eq_getElem hi, hrest,
      List.getD_eq_getElem lines "" hi]

/-- Every index the excerpt loop visits is within the template's line
count, because the loop's upper bound is clipped by `min` against it. -/
theorem excerpt_index_bound (lines : List String) (lineNo : Nat) :
    ∀ i ∈ List.range' (lineNo - 3) (min lines.length (lineNo + 2) - (lineNo - 3)),
      i < lines.length := by
  intro i hi
  rw [List.mem_range'_1] at hi
  have h2 : min lines.length (lineNo + 2) ≤ lines.length := Nat.min_le_left _ _
  omega

/-- The partiality-faithful excerpt computation never hits an
out-of-bounds access: it always returns the total excerpt rows. -/
theorem excerpt_rows_checked_eq (lines : List String) (lineNo : Nat) :
    excerpt_rows_checked lines lineNo = some (excerpt_rows lines lineNo) := by
  unfold excerpt_rows_checked excerpt_rows
  exact rows_checked_eq lines _ _ (excerpt_index_bound lines lineNo)

/-- Joining at least two lines starts with the first line's text. -/
theorem joinLines_head_prefix (a b : String) (t : List String) :
    a.data <+: (joinLines (a :: b :: t)).data := by
  simp only [joinLines, String.data_append]
  rw [List.append_assoc]
  exact List.prefix_append _ _

/-- C6 (confirmed): for every failure message and every template text,
empty template included, the TextFSM formatter runs all its index accesses
in bounds (the partiality-faithful version always returns the total
function's Report rather than failing), and both formatters return a
Report that opens with the stable header naming the grammar that failed.
No classifier or excerpt step can raise; when no classifier matches, the
chain itself ends in the verbatim Detail fallback. -/
theorem format_error_total (msg template : String) :
    format_textfsm_error_checked msg template = some (format_textfsm_error msg template)
      ∧ ("TextFSM Error" : String).data <+: (format_textfsm_error msg template).data
      ∧ ("TTP Error" : String).data <+: (format_ttp_error msg template).data := by
  refine ⟨?_, ?_, ?_⟩
  · unfold format_textfsm_error_checked format_textfsm_error
    cases search_line msg.data with
    | none => rfl
    | some n => simp [excerpt_rows_checked_eq]
  · unfold format_textfsm_error
    cases search_line msg.data with
    | none => exact joinLines_head_prefix _ _ _
    | some n => exact joinLines_head_prefix _ _ _
  · unfold format_ttp_error
    exact joinLines_head_prefix _ _ _

/-- C2 (counterexample): for the spec's own example — a ten-line template
and a failure message containing `line 5` — the Report's excerpt shows the
1-based lines 3, 4, 5, 6 and 7 (two lines of context after the offending
line, not one), so the window does not consist of lines 3-6 as claimed. -/
theorem textfsm_excerpt_window_counterexample :
    (textfsm_report_rows "Syntax error at line 5"
        "l1\nl2\nl3\nl4\nl5\nl6\nl7\nl8\nl9\nl10").map Prod.fst = [3, 4, 5, 6, 7]
      ∧ (textfsm_report_rows "Syntax error at line 5"
        "l1\nl2\nl3\nl4\nl5\nl6\nl7\nl8\nl9\nl10").map Prod.fst ≠ [3, 4, 5, 6] := by
  constructor
  · decide
  · decide

/-- C2 (amended): when a 1-based line number `n` within the template is
extracted from the failure message, the excerpt window consists of the
lines from two before `n` through two after `n`, clipped to the template's
bounds, and the marker is attached exactly to line `n`; in particular for
a 10-line template and a message containing `line 5` the excerpt shows
lines 3-7 with line 5 marked. -/
theorem textfsm_excerpt_window (msg template : String) (n : Nat)
    (hline : search_line msg.data = some n)
    (h1 : 1 ≤ n) (h2 : n ≤ (py_splitlines template).length) :
    (∀ j : Nat, j ∈ (textfsm_report_rows msg template).map Prod.fst
        ↔ (max 1 (n - 2) ≤ j ∧ j ≤ min (py_splitlines template).length (n + 2)))
      ∧ ∀ r ∈ textfsm_report_rows msg template, (r.2.1 = true ↔ r.1 = n) := by
  unfold textfsm_report_rows
  rw [hline]
  unfold excerpt_rows
  constructor
  · intro j
    simp only [List.map_map, List.mem_map, Function.comp, List.mem_range'_1]
    constructor
    · rintro ⟨i, ⟨hi1, hi2⟩, rfl⟩
      have hmin : min (py_splitlines template).length (n + 2)
          ≤ (py_splitlines template).length := Nat.min_le_left _ _
      omega
    · rintro ⟨ha, hb⟩
      exact ⟨j - 1, ⟨by omega, by omega⟩, by omega⟩
  · intro r hr
    simp only [List.mem_map, List.mem_range'_1] at hr
    obtain ⟨i, hi, rfl⟩ := hr
    simp only [decide_eq_true_eq]
    omega

/-- Witness for `textfsm_excerpt_window` on a six-line template and a
message naming line 4. -/
theorem textfsm_excerpt_window_witness :
    (search_line ("Bad value on line 4" : String).data = some 4
        ∧ 1 ≤ 4 ∧ 4 ≤ (py_splitlines "a\nb\nc\nd\ne\nf").length)
      ∧ ((∀ j : Nat, j ∈ (textfsm_report_rows "Bad value on line 4" "a\nb\nc\nd\ne\nf").map Prod.fst
          ↔ (max 1 (4 - 2) ≤ j ∧ j ≤ min (py_splitlines "a\nb\nc\nd\ne\nf").length (4 + 2)))
        ∧ ∀ r ∈ textfsm_report_rows "Bad value on line 4" "a\nb\nc\nd\ne\nf",
            (r.2.1 = true ↔ r.1 = 4)) :=
  ⟨⟨by decide, by decide, by decide⟩,
    textfsm_excerpt_window "Bad value on line 4" "a\nb\nc\nd\ne\nf" 4
      (by decide) (by decide) (by decide)⟩

/-- C8 (code_bug): the second TextFSM classifier tests the needle
`no Start state` — which contains an uppercase letter — against the
lowercased message, so that disjunct can never match.  A message saying
`no start state` (or any casing other than the exact `No 'Start' state`)
falls through to the verbatim Detail fallback instead of producing the
missing-Start-state Issue the spec describes; only the exact library
wording `No 'Start' state` is classified. -/
theorem textfsm_start_state_classifier_bug :
    textfsm_issue_lines "no start state" = ["  Detail: no start state"]
      ∧ textfsm_issue_lines "NO START STATE" = ["  Detail: NO START STATE"]
      ∧ textfsm_issue_lines "No \x27Start\x27 state"
        = ["  Issue: Missing \x27Start\x27 state.",
           "  Hint:  Every TextFSM template needs a \x27Start\x27 state",
           "         after the Value declarations."] := by
  refine ⟨?_, ?_, ?_⟩ <;> decide
